import Mathlib

/-!
Shallow embedding of `src/state/was.go` (package `state` of go-evm): the
write-ahead state session (`WriteAheadState`) with its operations `Reset`,
`ApplyTransaction` and `Commit`, together with the private helpers
`writeRoot`, `writeHead`, `writeTransactions` and `writeReceipts`.

External collaborators (go-ethereum's `StateDB`, the EVM engine
`core.ApplyMessage`, `crypto.CreateAddress`, RLP encoding, the key-value
database and its batches) are modelled as an explicit environment `Env σ`
of pure, possibly failing operations over an abstract working-state type
`σ`; Go's in-place mutation becomes explicit state passing.  Hashes and
addresses are abstracted to `Nat`; byte strings to `List Nat`; `big.Int`
gas counters (always non-negative in this code: they start at zero and
only ever have `uint64` values added) to `Nat`.
-/

namespace GoEvm

/-- Model of `common.Hash`, abstracted. -/
abbrev Hash := Nat

/-- Model of `common.Address`, abstracted. -/
abbrev Addr := Nat

/-- Byte strings (`[]byte`). -/
abbrev Bytes := List Nat

/-- Model of an `ethTypes.Log`, abstracted: the session only moves logs
around. -/
abbrev Log := Nat

/-- The key-value database (`ethdb.Database`) and its batches: an ordered
list of `put` records (key, value).  `Put` appends a record. -/
abbrev Db := List (Bytes × Bytes)

/-- Byte form of a hash, `root.Bytes()`. -/
def hashBytes (h : Hash) : Bytes := [h]

/-- Model of `common.Hash{}` — the zero hash returned alongside every
`Commit` error. -/
def zeroHash : Hash := 0

/-- The `rootKey` package-level key constant (declared in another file of
package `state`, not under `src/`); its exact bytes are irrelevant here,
only that the three key constants are distinct. -/
def rootKey : Bytes := [0]

/-- The `headTxKey` package-level key constant (declared in another file of
package `state`, not under `src/`). -/
def headTxKey : Bytes := [1]

/-- The `receiptsPrefix` package-level key constant (declared in another
file of package `state`, not under `src/`): receipts are stored under
this fixed byte followed by the transaction hash. -/
def receiptsPfx : Bytes := [2]

/-- Model of `ethTypes.Transaction`: externally supplied immutable input.  Fields
are the ones this core consumes (`Nonce()`, gas price, gas limit,
recipient, value, payload). -/
structure Transaction where
  nonce : Nat
  gasPriceField : Nat
  gasField : Nat
  toAddr : Option Addr
  value : Nat
  payload : Bytes
  deriving DecidableEq, Repr

/-- Model of `ethTypes.Transaction{}`: the zero-value transaction used by
`writeHead` when no transactions were applied this epoch. -/
def emptyTransaction : Transaction :=
  { nonce := 0, gasPriceField := 0, gasField := 0, toAddr := none,
    value := 0, payload := [] }

/-- Model of `core.Message` as produced by `tx.AsMessage(signer)`: sender (`From()`,
derived from the signature by the signer), gas, gas price, recipient
(`To()`, `none` for contract creation). -/
structure Msg where
  sender : Addr
  gas : Nat
  gasPrice : Nat
  toAddr : Option Addr
  deriving DecidableEq, Repr

/-- Model of `ethTypes.Receipt`.  Go's `ContractAddress` is a zero value unless set;
we model "carries a created-contract address" as an `Option`. -/
structure Receipt where
  postState : Bytes
  failed : Bool
  cumulativeGasUsed : Nat
  txHash : Hash
  gasUsed : Nat
  contractAddress : Option Addr
  logs : List Log
  bloom : Nat
  deriving DecidableEq, Repr

/-- Model of `vm.Context` as built by `ApplyTransaction`.  The fixed library
functions `core.CanTransfer` / `core.Transfer` are engine plumbing and
are omitted; the fields this core fills are kept. -/
structure Context where
  getHash : Nat → Hash
  origin : Addr
  gasLimit : Nat
  gasPrice : Nat
  blockNumber : Int

/-- The context literal of `ApplyTransaction`: `GetHash` returns the
current block hash for every queried height, `Origin` is the message
sender, `BlockNumber` is the placeholder `big.NewInt(0)`. -/
def mkVmContext (msg : Msg) (blockHash : Hash) : Context :=
  { getHash := fun _ => blockHash
    origin := msg.sender
    gasLimit := msg.gas
    gasPrice := msg.gasPrice
    blockNumber := 0 }

/-- Outcome of `core.ApplyMessage(vmenv, msg, gp)`.  The working state and
the gas pool are passed by pointer in Go, so the engine may leave them
mutated on either outcome; both constructors carry them out. -/
inductive EngineOutcome (σ : Type) where
  | ok (st : σ) (gp : Nat) (gasUsed : Nat) (failed : Bool)
  | err (st : σ) (gp : Nat) (msg : String)
  deriving Repr, DecidableEq

/-- The environment of external collaborators, over an abstract working
state `σ` (go-ethereum's `*state.StateDB`):

* `txHash` — `tx.Hash()`;
* `asMessage` — `tx.AsMessage(signer)` (signature derivation, fallible);
* `stPrep` — `ethState.Prepare(txHash, blockHash, txIndex)`;
* `applyMessage` — `core.ApplyMessage` on the EVM built from the context,
  the chain config and vm config being folded into the function;
* `intermediateRoot` — `ethState.IntermediateRoot(deleteEmptyObjects)`,
  side-effecting, so it returns the updated state with the root;
* `getLogs` — `ethState.GetLogs(txHash)`;
* `createAddress` — `crypto.CreateAddress(origin, nonce)`;
* `createBloom` — `ethTypes.CreateBloom` folded over the receipt's logs;
* `stateReset` — `ethState.Reset(root)` (fallible rebind);
* `stateCommit` — `ethState.Commit(deleteEmptyObjects)` (fallible,
  returns the finalized root);
* `trieCommit` — `ethState.Database().TrieDB().Commit(root, true)`
  (forced durable flush of the trie nodes into the database);
* `dbPut` — single-key `db.Put`;
* `batchPut` / `batchWrite` — `batch.Put` and `batch.Write`, a batch
  being an accumulated list of records written into the database by
  `batchWrite`;
* `encodeTx` / `encodeReceipt` — `rlp.EncodeToBytes` on a transaction
  (wire form) and on a `ReceiptForStorage` (storage form). -/
structure Env (σ : Type) where
  stateNew : Db → Hash → Except String σ
  txHash : Transaction → Hash
  asMessage : Transaction → Except String Msg
  stPrep : σ → Hash → Hash → Nat → σ
  applyMessage : Context → σ → Msg → Nat → EngineOutcome σ
  intermediateRoot : σ → Bool → σ × Hash
  getLogs : σ → Hash → List Log
  createAddress : Addr → Nat → Addr
  createBloom : List Log → Nat
  stateReset : σ → Hash → Except String σ
  stateCommit : σ → Bool → Except String (σ × Hash)
  trieCommit : Db → Hash → Bool → Except String Db
  dbPut : Db → Bytes → Bytes → Except String Db
  batchPut : Db → Bytes → Bytes → Except String Db
  batchWrite : Db → Db → Except String Db
  encodeTx : Transaction → Except String Bytes
  encodeReceipt : Receipt → Except String Bytes

/-- The `WriteAheadState` struct: database handle, working state, ordered
buffers of applied transactions / receipts / logs, gas accounting and
the transaction index.  The immutable configuration (`signer`,
`chainConfig`, `vmConfig`) lives in the environment; `gasLimit` is kept
here as in the source.  The logger is dropped (logging is the only use). -/
structure WriteAheadState (σ : Type) where
  db : Db
  ethState : σ
  gasLimit : Nat
  txIndex : Nat
  transactions : List Transaction
  receipts : List Receipt
  allLogs : List Log
  totalUsedGas : Nat
  gp : Nat
  deriving DecidableEq

/-- Constructor `NewWriteAheadState`: `ethState.New(root, ethState.NewDatabase(db))`;
fails if the store cannot produce that projection.  The Go constructor
leaves the buffer, counter and pool fields at their zero values (`nil`
slices and `nil` big-int / gas-pool pointers, modelled as `[]` and `0`);
they are initialized by the first `Reset`. -/
def NewWriteAheadState (E : Env σ) (db : Db) (root : Hash) (gasLimit : Nat) :
    Except String (WriteAheadState σ) :=
  match E.stateNew db root with
  | .error e => .error e
  | .ok st =>
      .ok { db := db
            ethState := st
            gasLimit := gasLimit
            txIndex := 0
            transactions := []
            receipts := []
            allLogs := []
            totalUsedGas := 0
            gp := 0 }

/-- Operation `Reset(root)`: rebinds the working state to `root` (fallible); on
success clears the three buffers, zeroes the transaction index and the
cumulative gas counter, and refills the gas pool to the configured gas
limit (`new(core.GasPool).AddGas(was.gasLimit)`).  On a rebind error the
method returns the error at once and touches nothing.  The trailing
debug log statement is a no-op here. -/
def Reset (E : Env σ) (was : WriteAheadState σ) (root : Hash) :
    WriteAheadState σ × Option String :=
  match E.stateReset was.ethState root with
  | .error e => (was, some e)
  | .ok st =>
      ({ was with
          ethState := st
          txIndex := 0
          transactions := []
          receipts := []
          allLogs := []
          totalUsedGas := 0
          gp := was.gasLimit }, none)

/-- Receipt construction of `ApplyTransaction`, named so that theorems can
refer to it: `ethTypes.NewReceipt(root.Bytes(), failed, totalUsedGas)`
followed by the field assignments of the source.  `origin` is
`vmenv.Context.Origin`; `cumulative` is the already-updated cumulative
gas counter. -/
def applyReceipt (E : Env σ) (tx : Transaction) (msg : Msg) (origin : Addr)
    (st2 : σ) (gas cumulative : Nat) (failed : Bool) : Receipt :=
  -- ethTypes.NewReceipt with the intermediate root (computed on the
  -- post-engine state st2, with side effects folded into the state kept by
  -- ApplyTransaction), then the fields set one by one as in the source:
  { postState := hashBytes (E.intermediateRoot st2 true).2
    failed := failed
    cumulativeGasUsed := cumulative
    txHash := E.txHash tx
    gasUsed := gas
    -- if the transaction created a contract (nil recipient), store the
    -- creation address crypto.CreateAddress(vmenv.Context.Origin, tx.Nonce()).
    contractAddress :=
      if msg.toAddr.isNone then some (E.createAddress origin tx.nonce)
      else none
    logs := E.getLogs (E.intermediateRoot st2 true).1 (E.txHash tx)
    bloom :=
      E.createBloom (E.getLogs (E.intermediateRoot st2 true).1 (E.txHash tx)) }

/-- Operation `ApplyTransaction(tx, txIndex, blockHash)`.  Go mutates the
receiver and returns an `error`; here the call returns the updated
session next to an optional error.  On a signature-derivation failure
nothing has been touched; on an engine error the working state and gas
pool carry whatever the engine left in them (they are passed by pointer
in Go), while the buffers, the cumulative gas counter and the
transaction index are untouched. -/
def ApplyTransaction (E : Env σ) (was : WriteAheadState σ) (tx : Transaction)
    (txIndex : Nat) (blockHash : Hash) : WriteAheadState σ × Option String :=
  match E.asMessage tx with
  | .error e => (was, some e)
  | .ok msg =>
    -- Prepare the ethState with the transaction hash (E.stPrep below) so
    -- that it can be used in emitted logs, then run the engine; the gas is
    -- accumulated, IntermediateRoot(true) finalizes the state objects, the
    -- receipt is built and everything is appended to the buffers.
    match E.applyMessage (mkVmContext msg blockHash)
        (E.stPrep was.ethState (E.txHash tx) blockHash txIndex) msg was.gp with
    | .err st2 gp2 e => ({ was with ethState := st2, gp := gp2 }, some e)
    | .ok st2 gp2 gas failed =>
      ({ was with
          ethState := (E.intermediateRoot st2 true).1
          gp := gp2
          totalUsedGas := was.totalUsedGas + gas
          txIndex := was.txIndex + 1
          transactions := was.transactions ++ [tx]
          receipts := was.receipts ++
            [applyReceipt E tx msg (mkVmContext msg blockHash).origin st2 gas
              (was.totalUsedGas + gas) failed]
          allLogs := was.allLogs ++
            (applyReceipt E tx msg (mkVmContext msg blockHash).origin st2 gas
              (was.totalUsedGas + gas) failed).logs }, none)

/-- Helper `writeRoot`: `was.db.Put(rootKey, root.Bytes())`. -/
def writeRoot (E : Env σ) (was : WriteAheadState σ) (root : Hash) :
    Except String Db :=
  E.dbPut was.db rootKey (hashBytes root)

/-- Helper `writeHead`: puts, under `headTxKey`, the hash of the last transaction
of the epoch, starting from the zero-value transaction when the buffer
is empty (`head := &ethTypes.Transaction{}`). -/
def writeHead (E : Env σ) (was : WriteAheadState σ) : Except String Db :=
  E.dbPut was.db headTxKey
    (hashBytes (E.txHash (was.transactions.getLastD emptyTransaction)))

/-- The batch-filling loop of `writeTransactions`: RLP-encode each buffered
transaction and `batch.Put` it under its hash, aborting on the first
failure. -/
def txBatchPuts (E : Env σ) : List Transaction → Db → Except String Db
  | [], b => .ok b
  | tx :: rest, b =>
    match E.encodeTx tx with
    | .error e => .error e
    | .ok data =>
      match E.batchPut b (hashBytes (E.txHash tx)) data with
      | .error e => .error e
      | .ok b2 => txBatchPuts E rest b2

/-- Helper `writeTransactions`: fill a fresh batch with the buffered transactions
and write it into the database. -/
def writeTransactions (E : Env σ) (was : WriteAheadState σ) :
    Except String Db :=
  match txBatchPuts E was.transactions [] with
  | .error e => .error e
  | .ok b => E.batchWrite was.db b

/-- The batch-filling loop of `writeReceipts`: encode each buffered receipt
in its storage form and `batch.Put` it under `receiptsPrefix ‖ txHash`,
aborting on the first failure. -/
def receiptBatchPuts (E : Env σ) : List Receipt → Db → Except String Db
  | [], b => .ok b
  | r :: rest, b =>
    match E.encodeReceipt r with
    | .error e => .error e
    | .ok data =>
      match E.batchPut b (receiptsPfx ++ hashBytes r.txHash) data with
      | .error e => .error e
      | .ok b2 => receiptBatchPuts E rest b2

/-- Helper `writeReceipts`: fill a fresh batch with the buffered receipts (storage
encoding) and write it into the database. -/
def writeReceipts (E : Env σ) (was : WriteAheadState σ) :
    Except String Db :=
  match receiptBatchPuts E was.receipts [] with
  | .error e => .error e
  | .ok b => E.batchWrite was.db b

/-- Operation `Commit()`: the ordered, non-atomic pipeline.  Stage order:
`ethState.Commit(true)` (state finalize), `TrieDB().Commit(root, true)`
(forced durable trie flush), `writeRoot`, `writeHead`,
`writeTransactions`, `writeReceipts`.  The first failing stage returns
`(common.Hash{}, err)` at once; the finalized root is returned only when
every stage succeeds.  The session's buffers and counters are never
touched — only the working state and the database handle advance. -/
def Commit (E : Env σ) (was : WriteAheadState σ) :
    WriteAheadState σ × Hash × Option String :=
  match E.stateCommit was.ethState true with
  | .error e => (was, zeroHash, some e)
  | .ok (st, root) =>
    match E.trieCommit was.db root true with
    | .error e => ({ was with ethState := st }, zeroHash, some e)
    | .ok db1 =>
      match writeRoot E { was with ethState := st, db := db1 } root with
      | .error e => ({ was with ethState := st, db := db1 }, zeroHash, some e)
      | .ok db2 =>
        match writeHead E { was with ethState := st, db := db2 } with
        | .error e => ({ was with ethState := st, db := db2 }, zeroHash, some e)
        | .ok db3 =>
          match writeTransactions E { was with ethState := st, db := db3 } with
          | .error e =>
              ({ was with ethState := st, db := db3 }, zeroHash, some e)
          | .ok db4 =>
            match writeReceipts E { was with ethState := st, db := db4 } with
            | .error e =>
                ({ was with ethState := st, db := db4 }, zeroHash, some e)
            | .ok db5 => ({ was with ethState := st, db := db5 }, root, none)

/-- The orchestrator's per-epoch loop: apply a list of transactions in
strict order, feeding each call the session's current transaction index
and a fixed block hash, stopping at the first applier error. -/
def applySeq (E : Env σ) (blockHash : Hash) :
    WriteAheadState σ → List Transaction → WriteAheadState σ × Option String
  | was, [] => (was, none)
  | was, tx :: rest =>
    match ApplyTransaction E was tx was.txIndex blockHash with
    | (was', none) => applySeq E blockHash was' rest
    | (was', some e) => (was', some e)

/-! ## Concrete environments for evaluation

A fault-injection environment over the trivial working state `Unit`.  Each
flag makes the corresponding commit stage fail with a stage-named error;
every database and batch write appends its record, so the database contents
record exactly which stages ran and in which order.  The trie flush records
itself under the marker key `[9]`; the finalized root is the constant `42`;
the engine simply debits the message gas from the pool. -/

def stageEnv (f1 f2 f3 f4 f5 f6 : Bool) : Env Unit where
  stateNew := fun _ _ => .ok ()
  txHash := fun t => t.nonce + 100
  asMessage := fun t =>
    .ok { sender := 7, gas := t.gasField, gasPrice := t.gasPriceField,
          toAddr := t.toAddr }
  stPrep := fun s _ _ _ => s
  applyMessage := fun _ s m gp =>
    if m.gas ≤ gp then .ok s (gp - m.gas) m.gas false
    else .err s gp "ExecutionError"
  intermediateRoot := fun s _ => (s, 55)
  getLogs := fun _ h => [h]
  createAddress := fun o n => o * 1000 + n
  createBloom := fun ls => ls.length
  stateReset := fun s _ => .ok s
  stateCommit := fun _ _ =>
    if f1 then .error "StateFinalizeError" else .ok ((), 42)
  trieCommit := fun db root _ =>
    if f2 then .error "TrieFlushError" else .ok (db ++ [([9], hashBytes root)])
  dbPut := fun db k v =>
    if k = rootKey then
      (if f3 then .error "RootWriteError" else .ok (db ++ [(k, v)]))
    else if k = headTxKey then
      (if f4 then .error "HeadWriteError" else .ok (db ++ [(k, v)]))
    else .ok (db ++ [(k, v)])
  batchPut := fun b k v =>
    if k.length = 1 then
      (if f5 then .error "TxWriteError" else .ok (b ++ [(k, v)]))
    else
      (if f6 then .error "ReceiptWriteError" else .ok (b ++ [(k, v)]))
  batchWrite := fun db b => .ok (db ++ b)
  encodeTx := fun t => .ok [t.nonce]
  encodeReceipt := fun r => .ok [r.gasUsed]

/-- The all-stages-succeed instance of `stageEnv`. -/
def okAllEnv : Env Unit := stageEnv false false false false false false

/-- A sample transaction sitting in the buffers when `Commit` is observed. -/
def c1Tx : Transaction :=
  { nonce := 3, gasPriceField := 1, gasField := 5, toAddr := none,
    value := 0, payload := [] }

/-- The sample receipt paired with `c1Tx` (its hash under `stageEnv` is
`103`). -/
def c1Receipt : Receipt :=
  { postState := [55], failed := false, cumulativeGasUsed := 9,
    txHash := 103, gasUsed := 9, contractAddress := none, logs := [],
    bloom := 0 }

/-- A session about to commit: empty database, one applied transaction and
its receipt in the buffers. -/
def c1Was : WriteAheadState Unit where
  db := []
  ethState := ()
  gasLimit := 1000
  txIndex := 1
  transactions := [c1Tx]
  receipts := [c1Receipt]
  allLogs := []
  totalUsedGas := 9
  gp := 991

/-- The error `Commit` must report under `stageEnv f1 .. f6`: the
stage-specific error of the first failing stage, in pipeline order. -/
def c1Err (f1 f2 f3 f4 f5 f6 : Bool) : Option String :=
  if f1 then some "StateFinalizeError"
  else if f2 then some "TrieFlushError"
  else if f3 then some "RootWriteError"
  else if f4 then some "HeadWriteError"
  else if f5 then some "TxWriteError"
  else if f6 then some "ReceiptWriteError"
  else none

/-- The database contents after `Commit` under `stageEnv f1 .. f6` on
`c1Was`: exactly the writes of the stages that precede the first failing
stage, in pipeline order (trie-flush marker, root pointer, head pointer,
transaction batch, receipt batch). -/
def c1ExpectedDb (f1 f2 f3 f4 f5 f6 : Bool) : Db :=
  if f1 || f2 then []
  else ([9], [42]) ::
    (if f3 then []
     else (rootKey, [42]) ::
       (if f4 then []
        else (headTxKey, [103]) ::
          (if f5 then []
           else ([103], [3]) ::
             (if f6 then [] else [([2, 103], [9])]))))

/-! ## Claim theorems -/

/-- C1: `Commit` runs its stages in the fixed order: state finalize,
durable trie flush, then the pointer/batch writes in the order root
pointer, head-transaction pointer, transaction batch, receipt batch.
The first failing stage aborts all remaining stages and determines the
returned stage-specific error; the database receives exactly the writes
of the stages that ran; and the finalized root (here `42`) is returned
if and only if every stage succeeds. -/
theorem commit_stage_order_and_abort :
    ∀ f1 f2 f3 f4 f5 f6 : Bool,
      (Commit (stageEnv f1 f2 f3 f4 f5 f6) c1Was).2.2
          = c1Err f1 f2 f3 f4 f5 f6 ∧
      ((Commit (stageEnv f1 f2 f3 f4 f5 f6) c1Was).2.1 = 42 ↔
          c1Err f1 f2 f3 f4 f5 f6 = none) ∧
      (Commit (stageEnv f1 f2 f3 f4 f5 f6) c1Was).1.db
          = c1ExpectedDb f1 f2 f3 f4 f5 f6 := by
  decide

/-- Every run of `Commit` either reports the zero hash or reports no
error: the two cannot be mixed. -/
lemma commit_zero_or_no_error (E : Env σ) (was : WriteAheadState σ) :
    (Commit E was).2.1 = zeroHash ∨ (Commit E was).2.2 = none := by
  unfold Commit
  repeat' split
  all_goals first
    | exact Or.inl rfl
    | exact Or.inr rfl

/-- C10: whenever `Commit` returns an error from any stage, the hash it
returns alongside the error is the all-zero hash, never a partially
finalized root. -/
theorem commit_error_returns_zero_hash (E : Env σ) (was : WriteAheadState σ)
    (e : String) (h : (Commit E was).2.2 = some e) :
    (Commit E was).2.1 = zeroHash := by
  rcases commit_zero_or_no_error E was with h0 | h0
  · exact h0
  · rw [h0] at h
    exact Option.noConfusion h

/-- Witness for `commit_error_returns_zero_hash`: a commit whose very first
stage fails returns the zero hash. -/
theorem commit_error_returns_zero_hash_witness :
    (Commit (stageEnv true false false false false false) c1Was).2.1
      = zeroHash :=
  commit_error_returns_zero_hash (stageEnv true false false false false false)
    c1Was "StateFinalizeError" (by decide)

/-- C7: `Commit` never modifies the session's transaction, receipt or
log buffers, the transaction index, the gas pool or the cumulative gas
counter — clearing them is exclusively the job of a subsequent `Reset`. -/
theorem commit_preserves_buffers (E : Env σ) (was : WriteAheadState σ) :
    (Commit E was).1.transactions = was.transactions ∧
    (Commit E was).1.receipts = was.receipts ∧
    (Commit E was).1.allLogs = was.allLogs ∧
    (Commit E was).1.txIndex = was.txIndex ∧
    (Commit E was).1.gp = was.gp ∧
    (Commit E was).1.totalUsedGas = was.totalUsedGas := by
  unfold Commit
  repeat' split
  all_goals exact ⟨rfl, rfl, rfl, rfl, rfl, rfl⟩

/-- An environment whose engine always reports an in-script revert:
`core.ApplyMessage` returns `failed = true` with a `nil` error, debiting
the message gas. -/
def revertEnv : Env Unit :=
  { okAllEnv with
      applyMessage := fun _ s m gp => .ok s (gp - m.gas) m.gas true }

/-- An environment whose signer rejects every transaction, as
`tx.AsMessage` does on malformed or unverifiable signatures. -/
def sigFailEnv : Env Unit :=
  { okAllEnv with
      asMessage := fun _ => .error "SignatureDerivationError" }

/-- An environment whose working-state rebind fails, as `ethState.Reset`
does when the store cannot open the requested root. -/
def resetFailEnv : Env Unit :=
  { okAllEnv with
      stateReset := fun _ _ => .error "StateLoadError" }

/-- The message `stageEnv`'s signer derives from `c1Tx`. -/
def c1Msg : Msg :=
  { sender := 7, gas := 5, gasPrice := 1, toAddr := none }

/-- A session with non-empty buffers and a small remaining gas pool. -/
def c4Was : WriteAheadState Unit where
  db := []
  ethState := ()
  gasLimit := 1000
  txIndex := 1
  transactions := [c1Tx]
  receipts := [c1Receipt]
  allLogs := [7]
  totalUsedGas := 9
  gp := 3

/-- A freshly reset session with an ample gas pool. -/
def w0 : WriteAheadState Unit where
  db := []
  ethState := ()
  gasLimit := 1000
  txIndex := 0
  transactions := []
  receipts := []
  allLogs := []
  totalUsedGas := 0
  gp := 1000

/-- A second sample transaction, with a recipient (no contract creation). -/
def txB : Transaction :=
  { nonce := 4, gasPriceField := 2, gasField := 7, toAddr := some 9,
    value := 1, payload := [8] }

/-- Shape of `ApplyTransaction` when the signer accepts the transaction and
the engine returns without error (reverted or not): the session after
the call, spelled out. -/
lemma applyTransaction_engine_ok_eq (E : Env σ) (was : WriteAheadState σ)
    (tx : Transaction) (i : Nat) (bh : Hash) (msg : Msg) (st2 : σ)
    (gp2 gas : Nat) (failed : Bool)
    (h1 : E.asMessage tx = .ok msg)
    (h2 : E.applyMessage (mkVmContext msg bh)
            (E.stPrep was.ethState (E.txHash tx) bh i) msg was.gp
          = .ok st2 gp2 gas failed) :
    ApplyTransaction E was tx i bh =
      ({ was with
          ethState := (E.intermediateRoot st2 true).1
          gp := gp2
          totalUsedGas := was.totalUsedGas + gas
          txIndex := was.txIndex + 1
          transactions := was.transactions ++ [tx]
          receipts := was.receipts ++
            [applyReceipt E tx msg (mkVmContext msg bh).origin st2 gas
              (was.totalUsedGas + gas) failed]
          allLogs := was.allLogs ++
            (applyReceipt E tx msg (mkVmContext msg bh).origin st2 gas
              (was.totalUsedGas + gas) failed).logs }, none) := by
  unfold ApplyTransaction
  simp only [h1]
  rw [h2]

/-- Shape of any successful `ApplyTransaction` call: exactly one slot is
appended to the transaction and receipt buffers, the index advances by
one, and the cumulative gas advances by the appended receipt's gas. -/
lemma applyTransaction_ok_shape (E : Env σ) (was was' : WriteAheadState σ)
    (tx : Transaction) (i : Nat) (bh : Hash)
    (h : ApplyTransaction E was tx i bh = (was', none)) :
    ∃ r, was'.txIndex = was.txIndex + 1 ∧
      was'.transactions = was.transactions ++ [tx] ∧
      was'.receipts = was.receipts ++ [r] ∧
      was'.totalUsedGas = was.totalUsedGas + r.gasUsed := by
  unfold ApplyTransaction at h
  repeat' split at h
  all_goals injection h with hw he
  · cases he
  · cases he
  · subst hw
    exact ⟨_, rfl, rfl, rfl, rfl⟩

/-- C4: whenever `ApplyTransaction` returns an error — signature-derivation
failure or an engine-level fault such as gas-pool exhaustion — the
transaction, receipt and log buffers, the cumulative gas counter and
the transaction index are exactly as they were before the call. -/
theorem applyTransaction_error_preserves_buffers (E : Env σ)
    (was was' : WriteAheadState σ) (tx : Transaction) (i : Nat) (bh : Hash)
    (e : String)
    (h : ApplyTransaction E was tx i bh = (was', some e)) :
    was'.transactions = was.transactions ∧
    was'.receipts = was.receipts ∧
    was'.allLogs = was.allLogs ∧
    was'.totalUsedGas = was.totalUsedGas ∧
    was'.txIndex = was.txIndex := by
  unfold ApplyTransaction at h
  repeat' split at h
  all_goals injection h with hw he
  all_goals first
    | (subst hw; exact ⟨rfl, rfl, rfl, rfl, rfl⟩)
    | cases he

/-- Witness for `applyTransaction_error_preserves_buffers`: a signer
rejection and a gas-pool exhaustion (message gas 5 against a remaining
pool of 3), both leaving the buffers intact. -/
theorem applyTransaction_error_preserves_buffers_witness :
    (ApplyTransaction sigFailEnv c4Was c1Tx 1 5
        = (c4Was, some "SignatureDerivationError")) ∧
    (ApplyTransaction okAllEnv c4Was c1Tx 1 5
        = (c4Was, some "ExecutionError")) ∧
    c4Was.transactions = c4Was.transactions ∧
    c4Was.receipts = c4Was.receipts := by
  refine ⟨by decide, by decide, ?_, ?_⟩
  · exact (applyTransaction_error_preserves_buffers sigFailEnv c4Was c4Was
      c1Tx 1 5 "SignatureDerivationError" (by decide)).1
  · exact (applyTransaction_error_preserves_buffers okAllEnv c4Was c4Was
      c1Tx 1 5 "ExecutionError" (by decide)).2.1

/-- C3: a transaction whose execution reverts in-script (the engine reports
`failed = true` with a nil error) is a successful apply, not an applier
error: no error is returned, the appended receipt records the failure
flag and the consumed gas, the gas is added to the cumulative counter,
and the transaction occupies a buffer slot exactly like a non-reverting
one. -/
theorem applyTransaction_revert_is_success (E : Env σ)
    (was : WriteAheadState σ) (tx : Transaction) (i : Nat) (bh : Hash)
    (msg : Msg) (st2 : σ) (gp2 gas : Nat)
    (h1 : E.asMessage tx = .ok msg)
    (h2 : E.applyMessage (mkVmContext msg bh)
            (E.stPrep was.ethState (E.txHash tx) bh i) msg was.gp
          = .ok st2 gp2 gas true) :
    (ApplyTransaction E was tx i bh).2 = none ∧
    (ApplyTransaction E was tx i bh).1.receipts
      = was.receipts ++
        [applyReceipt E tx msg (mkVmContext msg bh).origin st2 gas
          (was.totalUsedGas + gas) true] ∧
    (applyReceipt E tx msg (mkVmContext msg bh).origin st2 gas
        (was.totalUsedGas + gas) true).failed = true ∧
    (applyReceipt E tx msg (mkVmContext msg bh).origin st2 gas
        (was.totalUsedGas + gas) true).gasUsed = gas ∧
    (ApplyTransaction E was tx i bh).1.totalUsedGas
      = was.totalUsedGas + gas ∧
    (ApplyTransaction E was tx i bh).1.transactions
      = was.transactions ++ [tx] ∧
    (ApplyTransaction E was tx i bh).1.txIndex = was.txIndex + 1 := by
  rw [applyTransaction_engine_ok_eq E was tx i bh msg st2 gp2 gas true h1 h2]
  exact ⟨rfl, rfl, rfl, rfl, rfl, rfl, rfl⟩

/-- Witness for `applyTransaction_revert_is_success`: a reverting execution
of `c1Tx` on a fresh session returns no error and appends a receipt. -/
theorem applyTransaction_revert_is_success_witness :
    revertEnv.asMessage c1Tx = .ok c1Msg ∧
    (ApplyTransaction revertEnv w0 c1Tx 0 5).2 = none := by
  refine ⟨rfl, ?_⟩
  exact (applyTransaction_revert_is_success revertEnv w0 c1Tx 0 5 c1Msg ()
    995 5 rfl rfl).1

/-- C8: for every successfully applied transaction, the receipt carries a
created-contract address exactly when the recipient is empty, and that
address is `crypto.CreateAddress` applied to the execution origin
(`vmenv.Context.Origin`, the message sender) and the transaction's
nonce. -/
theorem receipt_contract_address_iff_creation (E : Env σ)
    (was : WriteAheadState σ) (tx : Transaction) (i : Nat) (bh : Hash)
    (msg : Msg) (st2 : σ) (gp2 gas : Nat) (failed : Bool)
    (h1 : E.asMessage tx = .ok msg)
    (hto : msg.toAddr = tx.toAddr)
    (h2 : E.applyMessage (mkVmContext msg bh)
            (E.stPrep was.ethState (E.txHash tx) bh i) msg was.gp
          = .ok st2 gp2 gas failed) :
    (ApplyTransaction E was tx i bh).1.receipts
      = was.receipts ++
        [applyReceipt E tx msg (mkVmContext msg bh).origin st2 gas
          (was.totalUsedGas + gas) failed] ∧
    (applyReceipt E tx msg (mkVmContext msg bh).origin st2 gas
        (was.totalUsedGas + gas) failed).contractAddress
      = (if tx.toAddr.isNone then
          some (E.createAddress (mkVmContext msg bh).origin tx.nonce)
        else none) ∧
    (mkVmContext msg bh).origin = msg.sender := by
  rw [applyTransaction_engine_ok_eq E was tx i bh msg st2 gp2 gas failed
    h1 h2]
  refine ⟨rfl, ?_, rfl⟩
  simp only [applyReceipt, hto]

/-- Witness for `receipt_contract_address_iff_creation`: applying the
contract-creation transaction `c1Tx` (empty recipient, nonce 3, origin
7) yields a receipt whose contract address is `CreateAddress(7, 3)`. -/
theorem receipt_contract_address_iff_creation_witness :
    okAllEnv.asMessage c1Tx = .ok c1Msg ∧
    c1Msg.toAddr = c1Tx.toAddr ∧
    (applyReceipt okAllEnv c1Tx c1Msg (mkVmContext c1Msg 5).origin () 5
        (w0.totalUsedGas + 5) false).contractAddress
      = some (okAllEnv.createAddress 7 3) := by
  refine ⟨rfl, by decide, ?_⟩
  have h := (receipt_contract_address_iff_creation okAllEnv w0 c1Tx 0 5
    c1Msg () 995 5 false rfl (by decide) rfl).2.1
  rw [h]
  decide

/-- Shape of a successful `Reset`: the session really reached its cleared
form. -/
lemma reset_ok_shape (E : Env σ) (was was' : WriteAheadState σ) (root : Hash)
    (h : Reset E was root = (was', none)) :
    was'.txIndex = 0 ∧ was'.transactions = [] ∧ was'.receipts = [] ∧
    was'.allLogs = [] ∧ was'.totalUsedGas = 0 ∧ was'.gp = was.gasLimit := by
  unfold Reset at h
  repeat' split at h
  all_goals injection h with hw he
  · cases he
  · subst hw
    exact ⟨rfl, rfl, rfl, rfl, rfl, rfl⟩

/-- C6 (amended): whenever the working-state rebind succeeds, `Reset(root)`
— irrespective of prior epoch state — empties the transaction, receipt
and log buffers, restores the gas pool to the configured gas limit, and
resets cumulative gas used and the transaction index to zero.  (When
the rebind fails, `Reset` returns the error and leaves the session
unchanged; see the counterexample to the unconditional claim.) -/
theorem reset_clears_on_success (E : Env σ) (was : WriteAheadState σ)
    (root : Hash) (st : σ)
    (h : E.stateReset was.ethState root = .ok st) :
    Reset E was root =
      ({ was with
          ethState := st
          txIndex := 0
          transactions := []
          receipts := []
          allLogs := []
          totalUsedGas := 0
          gp := was.gasLimit }, none) := by
  unfold Reset
  rw [h]

/-- Witness for `reset_clears_on_success`: resetting the dirty session
`c4Was` clears its buffers. -/
theorem reset_clears_on_success_witness :
    okAllEnv.stateReset c4Was.ethState 0 = .ok () ∧
    (Reset okAllEnv c4Was 0).1.transactions = [] := by
  refine ⟨rfl, ?_⟩
  rw [reset_clears_on_success okAllEnv c4Was 0 () rfl]

/-- Counterexample to C6 as stated: when the working-state rebind fails
(`ethState.Reset` errors, e.g. on an unknown root), `Reset` returns the
error and does **not** empty the buffers — so `Reset` does not *always*
clear them. -/
theorem reset_not_always_clears_counterexample :
    (Reset resetFailEnv c4Was 0).2 = some "StateLoadError" ∧
    (Reset resetFailEnv c4Was 0).1.transactions = [c1Tx] ∧
    (Reset resetFailEnv c4Was 0).1.transactions ≠ [] ∧
    (Reset resetFailEnv c4Was 0).1.gp = 3 ∧
    (Reset resetFailEnv c4Was 0).1.gp ≠ c4Was.gasLimit := by
  decide

/-- Invariant of the per-epoch apply loop: a successful `applySeq` run
advances the index and both buffers by exactly the number of applied
transactions, preserves the "cumulative gas equals the sum of receipt
gas" invariant, and never decreases the cumulative gas counter. -/
lemma applySeq_ok_invariant (E : Env σ) (bh : Hash) (txs : List Transaction) :
    ∀ was was' : WriteAheadState σ,
      applySeq E bh was txs = (was', none) →
      was'.txIndex = was.txIndex + txs.length ∧
      was'.transactions.length = was.transactions.length + txs.length ∧
      was'.receipts.length = was.receipts.length + txs.length ∧
      (was.totalUsedGas = (was.receipts.map Receipt.gasUsed).sum →
        was'.totalUsedGas = (was'.receipts.map Receipt.gasUsed).sum) ∧
      was.totalUsedGas ≤ was'.totalUsedGas := by
  induction txs with
  | nil =>
      intro was was' h
      unfold applySeq at h
      injection h with hw _
      subst hw
      simp
  | cons tx rest ih =>
      intro was was' h
      unfold applySeq at h
      cases hstep : ApplyTransaction E was tx was.txIndex bh with
      | mk w1 res =>
        rw [hstep] at h
        cases res with
        | some e => simp at h
        | none =>
          obtain ⟨r, hidx, htx, hrc, hgas⟩ :=
            applyTransaction_ok_shape E was w1 tx was.txIndex bh hstep
          obtain ⟨i1, i2, i3, i4, i5⟩ := ih w1 was' h
          have htxlen : w1.transactions.length
              = was.transactions.length + 1 := by simp [htx]
          have hrclen : w1.receipts.length = was.receipts.length + 1 := by
            simp [hrc]
          refine ⟨?_, ?_, ?_, ?_, ?_⟩
          · rw [i1, hidx]
            simp only [List.length_cons]
            omega
          · rw [i2, htxlen]
            simp only [List.length_cons]
            omega
          · rw [i3, hrclen]
            simp only [List.length_cons]
            omega
          · intro hsum
            apply i4
            rw [hgas, hsum, hrc]
            simp
          · calc was.totalUsedGas ≤ w1.totalUsedGas := by
                  rw [hgas]; exact Nat.le_add_right _ _
              _ ≤ was'.totalUsedGas := i5

/-- C5: after a `Reset` and any sequence of `N` successful
`ApplyTransaction` calls, the session's transaction index, the length
of the transactions buffer and the length of the receipts buffer all
equal `N`. -/
theorem epoch_counts_equal (E : Env σ)
    (was0 was1 wasN : WriteAheadState σ) (root bh : Hash)
    (txs : List Transaction)
    (hreset : Reset E was0 root = (was1, none))
    (happly : applySeq E bh was1 txs = (wasN, none)) :
    wasN.txIndex = txs.length ∧
    wasN.transactions.length = txs.length ∧
    wasN.receipts.length = txs.length := by
  obtain ⟨r1, r2, r3, -, -, -⟩ := reset_ok_shape E was0 was1 root hreset
  obtain ⟨i1, i2, i3, -, -⟩ := applySeq_ok_invariant E bh txs was1 wasN happly
  rw [i1, i2, i3, r1, r2, r3]
  simp

/-- Witness for `epoch_counts_equal`: two successful applies from a fresh
session leave index and buffer lengths equal to 2. -/
theorem epoch_counts_equal_witness :
    Reset okAllEnv w0 0 = (w0, none) ∧
    (applySeq okAllEnv 5 w0 [c1Tx, txB]).2 = none ∧
    (applySeq okAllEnv 5 w0 [c1Tx, txB]).1.txIndex = 2 := by
  refine ⟨by decide, by decide, ?_⟩
  exact (epoch_counts_equal okAllEnv w0 w0
    (applySeq okAllEnv 5 w0 [c1Tx, txB]).1 0 5 [c1Tx, txB] (by decide)
    (by decide)).1

/-- C9: within an epoch, cumulative gas used equals the exact sum of the
gas recorded in every appended receipt — reverted transactions
included — and a successful `ApplyTransaction` never decreases it. -/
theorem cumulative_gas_monotone_and_sum (E : Env σ)
    (was0 was1 wasN : WriteAheadState σ) (root bh : Hash)
    (txs : List Transaction)
    (hreset : Reset E was0 root = (was1, none))
    (happly : applySeq E bh was1 txs = (wasN, none)) :
    wasN.totalUsedGas = (wasN.receipts.map Receipt.gasUsed).sum ∧
    ∀ (w w' : WriteAheadState σ) (tx : Transaction) (i : Nat) (b : Hash),
      ApplyTransaction E w tx i b = (w', none) →
      w.totalUsedGas ≤ w'.totalUsedGas := by
  obtain ⟨-, -, r3, -, r5, -⟩ := reset_ok_shape E was0 was1 root hreset
  obtain ⟨-, -, -, i4, -⟩ := applySeq_ok_invariant E bh txs was1 wasN happly
  constructor
  · apply i4
    rw [r5, r3]
    rfl
  · intro w w' tx i b hap
    obtain ⟨r, -, -, -, hg⟩ := applyTransaction_ok_shape E w w' tx i b hap
    rw [hg]
    exact Nat.le_add_right _ _

/-- Witness for `cumulative_gas_monotone_and_sum`: after applying `c1Tx`
(gas 5) and `txB` (gas 7), the cumulative counter is 12 and equals the
sum over the receipts. -/
theorem cumulative_gas_monotone_and_sum_witness :
    (applySeq okAllEnv 5 w0 [c1Tx, txB]).1.totalUsedGas = 12 ∧
    (applySeq okAllEnv 5 w0 [c1Tx, txB]).1.totalUsedGas
      = ((applySeq okAllEnv 5 w0 [c1Tx, txB]).1.receipts.map
          Receipt.gasUsed).sum := by
  refine ⟨by decide, ?_⟩
  exact (cumulative_gas_monotone_and_sum okAllEnv w0 w0
    (applySeq okAllEnv 5 w0 [c1Tx, txB]).1 0 5 [c1Tx, txB] (by decide)
    (by decide)).1

/-- Under `okAllEnv`, filling the transaction batch always succeeds and
appends one record per buffered transaction, in order. -/
lemma txBatchPuts_okAllEnv (ts : List Transaction) (b : Db) :
    txBatchPuts okAllEnv ts b
      = .ok (b ++ ts.map fun t =>
          (hashBytes (okAllEnv.txHash t), [t.nonce])) := by
  induction ts generalizing b with
  | nil => simp [txBatchPuts]
  | cons t rest ih =>
      have he : okAllEnv.encodeTx t = .ok [t.nonce] := rfl
      have hb : okAllEnv.batchPut b (hashBytes (okAllEnv.txHash t)) [t.nonce]
          = .ok (b ++ [(hashBytes (okAllEnv.txHash t), [t.nonce])]) := rfl
      unfold txBatchPuts
      simp only [he, hb, ih]
      simp

/-- Under `okAllEnv`, filling the receipt batch always succeeds and appends
one record per buffered receipt, in order, under the prefixed key. -/
lemma receiptBatchPuts_okAllEnv (rs : List Receipt) (b : Db) :
    receiptBatchPuts okAllEnv rs b
      = .ok (b ++ rs.map fun r =>
          (receiptsPfx ++ hashBytes r.txHash, [r.gasUsed])) := by
  induction rs generalizing b with
  | nil => simp [receiptBatchPuts]
  | cons r rest ih =>
      have he : okAllEnv.encodeReceipt r = .ok [r.gasUsed] := rfl
      have hb : okAllEnv.batchPut b (receiptsPfx ++ hashBytes r.txHash)
            [r.gasUsed]
          = .ok (b ++ [(receiptsPfx ++ hashBytes r.txHash, [r.gasUsed])]) :=
        rfl
      unfold receiptBatchPuts
      simp only [he, hb, ih]
      simp

/-- Under `okAllEnv`, `Commit` always succeeds and writes, in order: the
trie-flush marker, the root pointer, the head-transaction pointer, one
record per buffered transaction, and one record per buffered receipt. -/
lemma commit_okAllEnv_shape (was : WriteAheadState Unit) :
    Commit okAllEnv was =
      ({ was with
          ethState := ()
          db := was.db ++
            ([9], [42]) :: (rootKey, [42]) ::
              (headTxKey,
                hashBytes (okAllEnv.txHash
                  (was.transactions.getLastD emptyTransaction))) ::
                ((was.transactions.map fun t =>
                    (hashBytes (okAllEnv.txHash t), [t.nonce])) ++
                  was.receipts.map fun r =>
                    (receiptsPfx ++ hashBytes r.txHash, [r.gasUsed])) },
        42, none) := by
  have h1 : okAllEnv.stateCommit was.ethState true = .ok ((), 42) := rfl
  have h2 : ∀ d, okAllEnv.trieCommit d 42 true
      = .ok (d ++ [([9], [42])]) := fun _ => rfl
  have h3 : ∀ d, okAllEnv.dbPut d rootKey (hashBytes 42)
      = .ok (d ++ [(rootKey, hashBytes 42)]) := fun _ => rfl
  have h4 : ∀ d v, okAllEnv.dbPut d headTxKey v
      = .ok (d ++ [(headTxKey, v)]) := fun _ _ => rfl
  have h5 : ∀ d b, okAllEnv.batchWrite d b = .ok (d ++ b) :=
    fun _ _ => rfl
  unfold Commit writeRoot writeHead writeTransactions writeReceipts
  simp only [h1, h2, h3, h4, h5, txBatchPuts_okAllEnv,
    receiptBatchPuts_okAllEnv]
  simp [hashBytes]

/-- C2: during `Commit`, the value written to the key-value store under the
head-transaction key is the hash of the last transaction applied this
epoch; when no transactions were applied, it is the hash of the
zero-value transaction `ethTypes.Transaction{}` — the explicit
empty-epoch sentinel — and `Commit` succeeds. -/
theorem commit_head_pointer (was : WriteAheadState Unit)
    (hdb : was.db = []) :
    (∀ rest t, was.transactions = rest ++ [t] →
        List.lookup headTxKey (Commit okAllEnv was).1.db
          = some (hashBytes (okAllEnv.txHash t))) ∧
    (was.transactions = [] →
        List.lookup headTxKey (Commit okAllEnv was).1.db
            = some (hashBytes (okAllEnv.txHash emptyTransaction)) ∧
        (Commit okAllEnv was).2.2 = none) := by
  have hs := commit_okAllEnv_shape was
  constructor
  · intro rest t ht
    rw [hs]
    simp only [hdb, ht, List.nil_append, List.getLastD_concat]
    rfl
  · intro ht
    rw [hs]
    simp only [hdb, ht, List.nil_append]
    exact ⟨rfl, trivial⟩

/-- Witness for `commit_head_pointer`: committing a session holding the two
transactions `c1Tx` and `txB` writes, under the head key, the hash of
`txB` (`104`); an empty session writes the hash of the zero-value
transaction (`100`). -/
theorem commit_head_pointer_witness :
    ((applySeq okAllEnv 5 w0 [c1Tx, txB]).1.db = [] ∧
      List.lookup headTxKey
          (Commit okAllEnv (applySeq okAllEnv 5 w0 [c1Tx, txB]).1).1.db
        = some [104]) ∧
    (w0.transactions = [] ∧
      List.lookup headTxKey (Commit okAllEnv w0).1.db = some [100]) := by
  constructor
  · refine ⟨by decide, ?_⟩
    have h := (commit_head_pointer (applySeq okAllEnv 5 w0 [c1Tx, txB]).1
      (by decide)).1 [c1Tx] txB (by decide)
    rw [h]
    decide
  · refine ⟨by decide, ?_⟩
    have h := ((commit_head_pointer w0 (by decide)).2 (by decide)).1
    rw [h]
    decide

end GoEvm

